import Mathlib

/-!
Verification development for WPBot (WhatsApp bulk sender, src/wpbot.py).

Strings from the Python source are modelled as lists of characters
(abbrev PyStr).  The Python str methods used by the source are embedded as
executable functions on PyStr:
  - str.strip()            -> pyStrip       (ASCII whitespace, both ends)
  - str.replace(c, "")     -> pyRemoveChar  (all uses in the source remove a
                                             single character)
  - str.isdigit()          -> pyIsDigit     (False on the empty string;
                                             restricted to ASCII digits)
  - str.startswith(c)      -> startsWithPlus / startsWithHash
  - s[len(p):]             -> List.drop p.length
Effectful code (pywhatkit / Selenium calls, time.sleep, print) is embedded by
explicit result values: the per-recipient send operation becomes a function
argument returning Except, sleeps are recorded as numbers in the outcome, and
diagnostics / no-op reports become data in the returned structures.
-/

namespace WPBot

abbrev PyStr := List Char

/-- Characters removed by the Python str.strip with no argument (ASCII range). -/
def isPySpace (c : Char) : Bool :=
  c == ' ' || c == '\t' || c == '\n' || c == '\r' || c == '\x0b' || c == '\x0c'

def lstrip (l : PyStr) : PyStr := l.dropWhile isPySpace

def rstrip (l : PyStr) : PyStr := (lstrip l.reverse).reverse

/-- Python str.strip(): drop leading and trailing whitespace. -/
def pyStrip (l : PyStr) : PyStr := rstrip (lstrip l)

/-- Python str.replace(c, "") for a one-character pattern: remove every
occurrence of c. -/
def pyRemoveChar (c : Char) (l : PyStr) : PyStr := l.filter (fun x => x != c)

/-- Python str.isdigit(): False on the empty string, otherwise every character
is a digit. -/
def pyIsDigit (l : PyStr) : Bool := !l.isEmpty && l.all Char.isDigit

/-- Python s.startswith("+"): the first character exists and is a plus. -/
def startsWithPlus (l : PyStr) : Bool := l.head? == some '+'

/-- Python s.startswith("#"): the first character exists and is a hash. -/
def startsWithHash (l : PyStr) : Bool := l.head? == some '#'

/-- One entry of the COUNTRY_CODES table of src/wpbot.py. -/
structure CountryData where
  code : PyStr
  patterns : List PyStr
  description : String
deriving DecidableEq, Repr

/-- The COUNTRY_CODES dict of src/wpbot.py (lines 27-74), as an association
list preserving the order of the source. -/
def COUNTRY_CODES : List (String × CountryData) := [
  ("Turkey", ⟨"+90".data, ["90".data, "05".data, "5".data], "Turkish mobile numbers"⟩),
  ("United States", ⟨"+1".data, ["1".data], "US/Canada numbers"⟩),
  ("United Kingdom", ⟨"+44".data, ["44".data, "07".data], "UK mobile numbers"⟩),
  ("Germany", ⟨"+49".data, ["49".data, "01".data], "German mobile numbers"⟩),
  ("France", ⟨"+33".data, ["33".data, "06".data, "07".data], "French mobile numbers"⟩),
  ("Italy", ⟨"+39".data, ["39".data, "03".data], "Italian mobile numbers"⟩),
  ("Spain", ⟨"+34".data, ["34".data, "06".data], "Spanish mobile numbers"⟩),
  ("Netherlands", ⟨"+31".data, ["31".data, "06".data], "Dutch mobile numbers"⟩),
  ("Belgium", ⟨"+32".data, ["32".data, "04".data], "Belgian mobile numbers"⟩),
  ("Switzerland", ⟨"+41".data, ["41".data, "07".data], "Swiss mobile numbers"⟩),
  ("Austria", ⟨"+43".data, ["43".data, "06".data], "Austrian mobile numbers"⟩),
  ("Poland", ⟨"+48".data, ["48".data, "05".data], "Polish mobile numbers"⟩),
  ("Czech Republic", ⟨"+420".data, ["420".data, "07".data], "Czech mobile numbers"⟩),
  ("Hungary", ⟨"+36".data, ["36".data, "06".data], "Hungarian mobile numbers"⟩),
  ("Romania", ⟨"+40".data, ["40".data, "07".data], "Romanian mobile numbers"⟩),
  ("Bulgaria", ⟨"+359".data, ["359".data, "08".data], "Bulgarian mobile numbers"⟩),
  ("Greece", ⟨"+30".data, ["30".data, "06".data], "Greek mobile numbers"⟩),
  ("Portugal", ⟨"+351".data, ["351".data, "09".data], "Portuguese mobile numbers"⟩),
  ("Sweden", ⟨"+46".data, ["46".data, "07".data], "Swedish mobile numbers"⟩),
  ("Norway", ⟨"+47".data, ["47".data, "04".data], "Norwegian mobile numbers"⟩),
  ("Denmark", ⟨"+45".data, ["45".data, "02".data], "Danish mobile numbers"⟩),
  ("Finland", ⟨"+358".data, ["358".data, "04".data], "Finnish mobile numbers"⟩),
  ("Russia", ⟨"+7".data, ["7".data, "08".data], "Russian mobile numbers"⟩),
  ("China", ⟨"+86".data, ["86".data, "01".data], "Chinese mobile numbers"⟩),
  ("Japan", ⟨"+81".data, ["81".data, "09".data], "Japanese mobile numbers"⟩),
  ("South Korea", ⟨"+82".data, ["82".data, "01".data], "South Korean mobile numbers"⟩),
  ("India", ⟨"+91".data, ["91".data, "09".data], "Indian mobile numbers"⟩),
  ("Brazil", ⟨"+55".data, ["55".data, "01".data], "Brazilian mobile numbers"⟩),
  ("Mexico", ⟨"+52".data, ["52".data, "04".data], "Mexican mobile numbers"⟩),
  ("Argentina", ⟨"+54".data, ["54".data, "01".data], "Argentine mobile numbers"⟩),
  ("Australia", ⟨"+61".data, ["61".data, "04".data], "Australian mobile numbers"⟩),
  ("New Zealand", ⟨"+64".data, ["64".data, "02".data], "New Zealand mobile numbers"⟩),
  ("South Africa", ⟨"+27".data, ["27".data, "08".data], "South African mobile numbers"⟩),
  ("Egypt", ⟨"+20".data, ["20".data, "01".data], "Egyptian mobile numbers"⟩),
  ("Saudi Arabia", ⟨"+966".data, ["966".data, "05".data], "Saudi mobile numbers"⟩),
  ("UAE", ⟨"+971".data, ["971".data, "05".data], "UAE mobile numbers"⟩),
  ("Israel", ⟨"+972".data, ["972".data, "05".data], "Israeli mobile numbers"⟩),
  ("Iran", ⟨"+98".data, ["98".data, "09".data], "Iranian mobile numbers"⟩),
  ("Pakistan", ⟨"+92".data, ["92".data, "03".data], "Pakistani mobile numbers"⟩),
  ("Bangladesh", ⟨"+880".data, ["880".data, "01".data], "Bangladeshi mobile numbers"⟩),
  ("Thailand", ⟨"+66".data, ["66".data, "08".data], "Thai mobile numbers"⟩),
  ("Vietnam", ⟨"+84".data, ["84".data, "03".data], "Vietnamese mobile numbers"⟩),
  ("Indonesia", ⟨"+62".data, ["62".data, "08".data], "Indonesian mobile numbers"⟩),
  ("Malaysia", ⟨"+60".data, ["60".data, "01".data], "Malaysian mobile numbers"⟩),
  ("Singapore", ⟨"+65".data, ["65".data, "08".data], "Singaporean mobile numbers"⟩),
  ("Philippines", ⟨"+63".data, ["63".data, "09".data], "Filipino mobile numbers"⟩)]

/-- Python country in COUNTRY_CODES / COUNTRY_CODES[country], as a lookup. -/
def lookupCountry (country : String) : Option CountryData :=
  (COUNTRY_CODES.find? (fun kv => kv.1 == country)).map (fun kv => kv.2)

/-- The cleaning step of normalize_number (src/wpbot.py lines 214-220):
strip whitespace, then remove spaces, hyphens and parentheses. -/
def clean (raw : PyStr) : PyStr :=
  pyRemoveChar ')' (pyRemoveChar '(' (pyRemoveChar '-' (pyRemoveChar ' ' (pyStrip raw))))

/-- The pattern-scanning loop of normalize_number (src/wpbot.py lines
231-241): try each pattern in listed order; on the first pattern that is a
prefix of the cleaned string, either prepend "+" (when the pattern equals the
dialing-code digits) or replace the pattern by the dialing code.  Returns
none when no pattern matches. -/
def apply_patterns (code : PyStr) (patterns : List PyStr) (cleaned : PyStr) : Option PyStr :=
  match patterns with
  | [] => none
  | p :: rest =>
    if p.isPrefixOf cleaned then
      if p = pyRemoveChar '+' code then
        some ('+' :: cleaned)
      else
        some (code ++ cleaned.drop p.length)
    else apply_patterns code rest cleaned

/-- normalize_number of src/wpbot.py (lines 193-241). -/
def normalize_number (raw_number : PyStr) (country : String) : Option PyStr :=
  if raw_number.isEmpty then none
  else
    match lookupCountry country with
    | none => none
    | some country_data =>
      let cleaned := clean raw_number
      if startsWithPlus cleaned then
        if pyIsDigit (pyRemoveChar '+' cleaned) then some cleaned else none
      else if pyIsDigit cleaned then
        apply_patterns country_data.code country_data.patterns cleaned
      else none

/-- normalize_tr_number of src/wpbot.py (lines 244-249): legacy Turkish
normalizer, delegates to normalize_number with country Turkey. -/
def normalize_tr_number (raw_number : PyStr) : Option PyStr :=
  normalize_number raw_number "Turkey"

/-- read_recipients_from_file of src/wpbot.py (lines 95-125), embedded over
the decoded lines of the file (file opening and the existence check are I/O
outside the model).  Returns the accepted recipients in order together with
the list of lines skipped with a "Skipping invalid phone entry" diagnostic
(blank lines and "#" comments are skipped silently, without a diagnostic). -/
def read_recipients_from_file : List PyStr → List PyStr × List PyStr
  | [] => ([], [])
  | raw_line :: rest =>
    let line := pyStrip raw_line
    let acc := read_recipients_from_file rest
    if line.isEmpty || startsWithHash line then acc
    else if !(startsWithPlus line && pyIsDigit (pyRemoveChar '+' line)) then
      (acc.1, line :: acc.2)
    else (line :: acc.1, acc.2)

/-- The message_file argument of read_message: either not supplied, or a path
to a missing file, or a path to a file with the given content. -/
inductive MsgFileArg where
  | absent : MsgFileArg
  | missing : MsgFileArg
  | given (content : PyStr) : MsgFileArg
deriving DecidableEq, Repr

/-- Errors raised by read_message: ValueError (usage) or FileNotFoundError. -/
inductive ReadMsgError where
  | usage (text : String) : ReadMsgError
  | notFound : ReadMsgError
deriving DecidableEq, Repr

/-- Python truthiness of an optional string: None and the empty string are
falsy. -/
def pyTruthy : Option PyStr → Bool
  | none => false
  | some s => !s.isEmpty

/-- Whether a message_file argument was supplied at all (a supplied Path
object is always truthy in Python, even for a missing file). -/
def fileSupplied : MsgFileArg → Bool
  | MsgFileArg.absent => false
  | _ => true

/-- read_message of src/wpbot.py (lines 128-150).  Mirrors the
control flow, including Python truthiness of the message string: an empty
inline message is falsy, so it does not trigger the both-supplied ValueError
and does trigger the message-required ValueError. -/
def read_message (message : Option PyStr) (message_file : MsgFileArg) :
    Except ReadMsgError PyStr :=
  if pyTruthy message && fileSupplied message_file then
    Except.error (ReadMsgError.usage "Provide either --message or --message-file, not both.")
  else
    match message_file with
    | MsgFileArg.missing => Except.error ReadMsgError.notFound
    | MsgFileArg.given content => Except.ok (pyStrip content)
    | MsgFileArg.absent =>
      match message with
      | none => Except.error (ReadMsgError.usage "A message is required. Use --message or --message-file.")
      | some m =>
        if m.isEmpty then
          Except.error (ReadMsgError.usage "A message is required. Use --message or --message-file.")
        else Except.ok m

/-- Per-recipient outcome of a dispatch loop.  sent records the number of
seconds slept after a successful send before moving on; failed records the
captured error text and the seconds slept before moving on. -/
inductive SendOutcome where
  | sent (settleSeconds : Int) : SendOutcome
  | failed (reason : PyStr) (recoverySeconds : Int) : SendOutcome
deriving DecidableEq, Repr

/-- Observable result of one dispatch call: the per-recipient outcomes in
order, the phone numbers passed to the send operation (in call order, one
entry per call), and whether the "No valid recipients found." no-op report
was printed. -/
structure DispatchReport where
  outcomes : List SendOutcome
  attempts : List PyStr
  noopReported : Bool
deriving DecidableEq, Repr

/-- send_messages_to_recipients of src/wpbot.py (lines 153-190).  The
pywhatkit sendwhatmsg_instantly call is abstracted by the send argument;
a success is followed by time.sleep(max(20, per_send_wait_seconds + 10)),
a caught exception by a diagnostic and time.sleep(5). -/
def send_messages_to_recipients (send : PyStr → Except PyStr Unit)
    (recipients : List PyStr) (per_send_wait_seconds : Int) : DispatchReport :=
  if recipients.isEmpty then ⟨[], [], true⟩
  else
    ⟨recipients.map (fun phone_number =>
        match send phone_number with
        | Except.ok _ => SendOutcome.sent (max 20 (per_send_wait_seconds + 10))
        | Except.error e => SendOutcome.failed e 5),
      recipients, false⟩

/-- send_messages_single_tab of src/wpbot.py (lines 252-323).  The Selenium
and webdriver-manager availability flags are parameters; driver construction,
the login wait, and the per-recipient navigation plus ENTER key are
abstracted by the send argument.  A success is followed by time.sleep(3), a
caught exception by a diagnostic and time.sleep(2).  The RuntimeError raised
when Selenium is unavailable precedes the empty-recipients check; the
webdriver-manager RuntimeError follows it. -/
def send_messages_single_tab (send : PyStr → Except PyStr Unit)
    (recipients : List PyStr) (seleniumAvailable webdriverManagerAvailable : Bool) :
    Except String DispatchReport :=
  if !seleniumAvailable then
    Except.error "Selenium is not available. Install with: python -m pip install selenium"
  else if recipients.isEmpty then Except.ok ⟨[], [], true⟩
  else if !webdriverManagerAvailable then
    Except.error "webdriver-manager is not available. Install with: python -m pip install webdriver-manager"
  else
    Except.ok
      ⟨recipients.map (fun phone_number =>
          match send phone_number with
          | Except.ok _ => SendOutcome.sent 3
          | Except.error e => SendOutcome.failed e 2),
        recipients, false⟩

/-- Statement-side predicate for the regular expression of a canonical
number from the spec: a leading plus sign followed by one or more digits. -/
def matchesCanonicalRegex (l : PyStr) : Bool :=
  startsWithPlus l && pyIsDigit (l.drop 1)

/-- The silent-skip condition of read_recipients_from_file (line 119 of
src/wpbot.py): blank line or comment line. -/
def lineSilentlySkipped (l : PyStr) : Bool := l.isEmpty || startsWithHash l

/-- The acceptance filter of read_recipients_from_file (line 121 of
src/wpbot.py): starts with a plus sign and, after removing every plus sign,
is a nonempty digit string. -/
def lineValid (l : PyStr) : Bool := startsWithPlus l && pyIsDigit (pyRemoveChar '+' l)

/-- Whether a read_message result is the ValueError usage failure (as opposed
to success or FileNotFoundError). -/
def isUsageError : Except ReadMsgError PyStr → Bool
  | Except.error (ReadMsgError.usage _) => true
  | _ => false

/-! Helper lemmas about the embedded Python string operations. -/

theorem dropWhile_eq_self_of_forall {p : Char → Bool} {l : PyStr}
    (h : ∀ c ∈ l, p c = false) : l.dropWhile p = l := by
  cases l with
  | nil => rfl
  | cons a t => simp [List.dropWhile_cons, h a (List.mem_cons_self a t)]

theorem lstrip_eq_self_of_forall {l : PyStr} (h : ∀ c ∈ l, isPySpace c = false) :
    lstrip l = l := dropWhile_eq_self_of_forall h

theorem pyStrip_eq_self_of_forall {l : PyStr} (h : ∀ c ∈ l, isPySpace c = false) :
    pyStrip l = l := by
  have h1 : lstrip l = l := lstrip_eq_self_of_forall h
  have h2 : lstrip l.reverse = l.reverse :=
    lstrip_eq_self_of_forall (fun c hc => h c (List.mem_reverse.mp hc))
  simp [pyStrip, rstrip, h1, h2]

theorem isPySpace_eq_true_iff (c : Char) :
    isPySpace c = true ↔
      c = ' ' ∨ c = '\t' ∨ c = '\n' ∨ c = '\r' ∨ c = '\x0b' ∨ c = '\x0c' := by
  simp [isPySpace, Bool.or_eq_true, beq_iff_eq, or_assoc]

theorem isDigit_not_pyspace {c : Char} (h : c.isDigit = true) : isPySpace c = false := by
  cases hs : isPySpace c with
  | false => rfl
  | true =>
    rcases (isPySpace_eq_true_iff c).mp hs with h1 | h1 | h1 | h1 | h1 | h1 <;>
      (subst h1; exact absurd h (by decide))

theorem isDigit_bne {c x : Char} (h : c.isDigit = true) (hx : x.isDigit = false) :
    (c != x) = true := by
  simp only [bne_iff_ne, ne_eq]
  intro he
  rw [he] at h
  rw [h] at hx
  exact Bool.noConfusion hx

theorem pyRemoveChar_eq_self_of_forall {x : Char} {l : PyStr}
    (h : ∀ c ∈ l, (c != x) = true) : pyRemoveChar x l = l := by
  simp only [pyRemoveChar]
  exact List.filter_eq_self.mpr h

theorem lstrip_lstrip (l : PyStr) : lstrip (lstrip l) = lstrip l := by
  induction l with
  | nil => rfl
  | cons a t ih =>
    cases ha : isPySpace a with
    | true => simpa [lstrip, List.dropWhile_cons, ha] using ih
    | false => simp [lstrip, List.dropWhile_cons, ha]

theorem rstrip_rstrip (l : PyStr) : rstrip (rstrip l) = rstrip l := by
  simp [rstrip, List.reverse_reverse, lstrip_lstrip]

theorem lstrip_head_not {l : PyStr} {c : Char} {t : PyStr} (h : lstrip l = c :: t) :
    isPySpace c = false := by
  induction l with
  | nil => exact absurd h (by simp [lstrip])
  | cons a s ih =>
    cases ha : isPySpace a with
    | true => exact ih (by simpa [lstrip, List.dropWhile_cons, ha] using h)
    | false =>
      rw [show lstrip (a :: s) = a :: s by simp [lstrip, List.dropWhile_cons, ha]] at h
      cases h
      exact ha

theorem lstrip_append_singleton {c : Char} (hc : isPySpace c = false) (l : PyStr) :
    ∃ m, lstrip (l ++ [c]) = m ++ [c] := by
  induction l with
  | nil => exact ⟨[], by simp [lstrip, List.dropWhile_cons, hc]⟩
  | cons a s ih =>
    cases ha : isPySpace a with
    | true =>
      obtain ⟨m, hm⟩ := ih
      exact ⟨m, by simpa [lstrip, List.dropWhile_cons, ha] using hm⟩
    | false => exact ⟨a :: s, by simp [lstrip, List.dropWhile_cons, ha]⟩

theorem rstrip_cons_of_head_not {c : Char} {t : PyStr} (hc : isPySpace c = false) :
    ∃ m, rstrip (c :: t) = c :: m := by
  obtain ⟨m, hm⟩ := lstrip_append_singleton hc t.reverse
  refine ⟨m.reverse, ?_⟩
  simp [rstrip, List.reverse_cons, hm]

theorem lstrip_cons_of_head_not {c : Char} {t : PyStr} (hc : isPySpace c = false) :
    lstrip (c :: t) = c :: t := by
  simp [lstrip, List.dropWhile_cons, hc]

theorem pyStrip_pyStrip (l : PyStr) : pyStrip (pyStrip l) = pyStrip l := by
  cases hl : lstrip l with
  | nil =>
    have h1 : pyStrip l = [] := by
      show rstrip (lstrip l) = []
      rw [hl]
      rfl
    rw [h1]
    rfl
  | cons c t =>
    have hc : isPySpace c = false := lstrip_head_not hl
    obtain ⟨m, hm⟩ := rstrip_cons_of_head_not (t := t) hc
    calc pyStrip (pyStrip l)
        = rstrip (lstrip (rstrip (c :: t))) := by rw [pyStrip, pyStrip, hl]
      _ = rstrip (c :: m) := by rw [hm, lstrip_cons_of_head_not hc]
      _ = rstrip (rstrip (c :: t)) := by rw [hm]
      _ = rstrip (c :: t) := rstrip_rstrip _
      _ = pyStrip l := by rw [pyStrip, hl]

/-! Claim theorems. -/

/-- Claim C1: code behaviour at the claimed Turkey inputs.  The claim (and
the spec) expect all three inputs to map to "+905551234567", but the code
strips the matched local prefix pattern ("5" resp. "05") in full and prepends
"+90", producing "+90551234567": a digit of the subscriber number is lost.
Only the third input, which matches the country-code pattern "90", behaves as
claimed. -/
theorem normalize_turkey_examples_eval :
    normalize_number "5551234567".data "Turkey" = some "+90551234567".data ∧
    normalize_number "05551234567".data "Turkey" = some "+90551234567".data ∧
    normalize_number "905551234567".data "Turkey" = some "+905551234567".data ∧
    "+90551234567".data ≠ "+905551234567".data := by
  refine ⟨by decide, by decide, by decide, by decide⟩

/-- Claim C2 counterexample: the cleaned input "+1+2" starts with "+" and its
remainder after stripping the leading "+" is not all digits, yet
normalize_number accepts it unchanged, because the code removes every "+"
(not just the leading one) before the digit test.  The accepted result keeps
its interior "+". -/
theorem plus_bypass_counterexample :
    startsWithPlus (clean "+1+2".data) = true ∧
    (("+1+2".data).drop 1).all Char.isDigit = false ∧
    normalize_number "+1+2".data "Turkey" = some "+1+2".data := by
  refine ⟨by decide, by decide, by decide⟩

/-- Claim C2 (amended): for a known country and nonempty raw input whose
cleaned form starts with "+", normalize_number returns the cleaned string
unchanged iff the cleaned string with every "+" character removed is a
nonempty all-digit string, and returns none otherwise.  Because the test
removes all plus signs, an accepted result may contain interior "+"
characters. -/
theorem plus_bypass_spec (raw : PyStr) (country : String)
    (hc : lookupCountry country ≠ none) (hr : raw ≠ [])
    (hp : startsWithPlus (clean raw) = true) :
    normalize_number raw country =
      (if pyIsDigit (pyRemoveChar '+' (clean raw)) then some (clean raw) else none) := by
  obtain ⟨cd, hcd⟩ : ∃ cd, lookupCountry country = some cd := by
    cases h : lookupCountry country with
    | none => exact absurd h hc
    | some cd => exact ⟨cd, rfl⟩
  have hne : raw.isEmpty = false := by
    cases raw with
    | nil => exact absurd rfl hr
    | cons a t => rfl
  simp [normalize_number, hne, hcd, hp]

/-- Witness for plus_bypass_spec at raw "+123" and country Turkey. -/
theorem plus_bypass_spec_witness :
    lookupCountry "Turkey" ≠ none ∧ "+123".data ≠ [] ∧
    startsWithPlus (clean "+123".data) = true ∧
    normalize_number "+123".data "Turkey" =
      (if pyIsDigit (pyRemoveChar '+' (clean "+123".data)) then some (clean "+123".data)
       else none) :=
  ⟨by decide, by decide, by decide,
    plus_bypass_spec "+123".data "Turkey" (by decide) (by decide) (by decide)⟩

/-- Claim C3 counterexample: "+12" matches the canonical pattern, but for the
unknown country name "Atlantis" normalize_number returns none rather than the
input: the claimed identity does not hold for every country argument, only
for countries present in COUNTRY_CODES. -/
theorem normalize_canonical_unknown_country_counterexample :
    matchesCanonicalRegex "+12".data = true ∧
    normalize_number "+12".data "Atlantis" = none := by
  refine ⟨by decide, by decide⟩

/-- Claim C3 (amended): for every raw input matching the canonical pattern
(a leading "+" followed by one or more digits) and every country present in
COUNTRY_CODES, normalize_number returns the input unchanged. -/
theorem normalize_identity_on_canonical (raw : PyStr) (country : String)
    (h : matchesCanonicalRegex raw = true) (hc : lookupCountry country ≠ none) :
    normalize_number raw country = some raw := by
  obtain ⟨cd, hcd⟩ : ∃ cd, lookupCountry country = some cd := by
    cases hx : lookupCountry country with
    | none => exact absurd hx hc
    | some cd => exact ⟨cd, rfl⟩
  obtain ⟨rest, hraw⟩ : ∃ rest, raw = '+' :: rest := by
    cases raw with
    | nil => exact absurd h (by decide)
    | cons a t =>
      have h1 : startsWithPlus (a :: t) = true := by
        have h2 : (startsWithPlus (a :: t) && pyIsDigit ((a :: t).drop 1)) = true := by
          simpa [matchesCanonicalRegex] using h
        exact ((Bool.and_eq_true _ _).mp h2).1
      have ha : a = '+' := by simpa [startsWithPlus] using h1
      exact ⟨t, by rw [ha]⟩
  subst hraw
  have hd : pyIsDigit rest = true := by
    have h2 : (startsWithPlus ('+' :: rest) && pyIsDigit (('+' :: rest).drop 1)) = true := by
      simpa [matchesCanonicalRegex] using h
    simpa using ((Bool.and_eq_true _ _).mp h2).2
  have hall : ∀ c ∈ rest, c.isDigit = true := by
    have h2 := ((Bool.and_eq_true _ _).mp hd).2
    exact fun c hc2 => List.all_eq_true.mp h2 c hc2
  have hmem : ∀ c ∈ ('+' :: rest : PyStr), c = '+' ∨ c.isDigit = true := by
    intro c hc2
    rcases List.mem_cons.mp hc2 with h1 | h1
    · exact Or.inl h1
    · exact Or.inr (hall c h1)
  have hnospace : ∀ c ∈ ('+' :: rest : PyStr), isPySpace c = false := by
    intro c hc2
    rcases hmem c hc2 with h1 | h1
    · rw [h1]; decide
    · exact isDigit_not_pyspace h1
  have hstrip : pyStrip ('+' :: rest) = '+' :: rest := pyStrip_eq_self_of_forall hnospace
  have hkeep : ∀ x : Char, x.isDigit = false → ('+' != x) = true →
      pyRemoveChar x ('+' :: rest) = '+' :: rest := by
    intro x hx hpx
    apply pyRemoveChar_eq_self_of_forall
    intro c hc2
    rcases hmem c hc2 with h1 | h1
    · rw [h1]; exact hpx
    · exact isDigit_bne h1 hx
  have hclean : clean ('+' :: rest) = '+' :: rest := by
    rw [clean, hstrip, hkeep ' ' (by decide) (by decide), hkeep '-' (by decide) (by decide),
      hkeep '(' (by decide) (by decide), hkeep ')' (by decide) (by decide)]
  have hremplus : pyRemoveChar '+' ('+' :: rest) = rest := by
    have h1 : pyRemoveChar '+' ('+' :: rest) = pyRemoveChar '+' rest := by
      simp [pyRemoveChar, List.filter_cons]
    rw [h1]
    apply pyRemoveChar_eq_self_of_forall
    intro c hc2
    exact isDigit_bne (hall c hc2) (by decide)
  simp [normalize_number, hcd, hclean, hremplus, hd, startsWithPlus]

/-- Witness for normalize_identity_on_canonical at "+12345" and Turkey. -/
theorem normalize_identity_on_canonical_witness :
    matchesCanonicalRegex "+12345".data = true ∧ lookupCountry "Turkey" ≠ none ∧
    normalize_number "+12345".data "Turkey" = some "+12345".data :=
  ⟨by decide, by decide,
    normalize_identity_on_canonical "+12345".data "Turkey" (by decide) (by decide)⟩

/-- Claim C4: the pattern scan of normalize_number tries the patterns in
listed order, and the first pattern that is a prefix of the cleaned string
decides the result regardless of any later patterns (order, not specificity,
decides). -/
theorem normalize_pattern_order (code : PyStr) (prev rest : List PyStr) (p cleaned : PyStr)
    (hprev : ∀ q ∈ prev, q.isPrefixOf cleaned = false)
    (hp : p.isPrefixOf cleaned = true) :
    apply_patterns code (prev ++ p :: rest) cleaned =
      (if p = pyRemoveChar '+' code then some ('+' :: cleaned)
       else some (code ++ cleaned.drop p.length)) := by
  induction prev with
  | nil => simp [apply_patterns, hp]
  | cons q qs ih =>
    have hq : q.isPrefixOf cleaned = false := hprev q (List.mem_cons_self q qs)
    have ih2 := ih (fun r hr => hprev r (List.mem_cons_of_mem q hr))
    simpa [apply_patterns, hq] using ih2

/-- Witness for normalize_pattern_order: with patterns ["5", "55"] (both of
which are prefixes of the input) and input "5551234567", the first-listed
"5" decides: the result replaces "5", and differs from the value the "55"
branch would produce. -/
theorem normalize_pattern_order_witness :
    ("5".data).isPrefixOf "5551234567".data = true ∧
    ("55".data).isPrefixOf "5551234567".data = true ∧
    apply_patterns "+90".data ["5".data, "55".data] "5551234567".data =
      some ("+90".data ++ ("5551234567".data).drop ("5".data).length) ∧
    some ("+90".data ++ ("5551234567".data).drop ("5".data).length) ≠
      some ("+90".data ++ ("5551234567".data).drop ("55".data).length) := by
  refine ⟨by decide, by decide, ?_, by decide⟩
  have h := normalize_pattern_order "+90".data [] ["55".data] "5".data "5551234567".data
    (fun q hq => absurd hq (List.not_mem_nil q)) (by decide)
  rw [List.nil_append] at h
  rw [h]
  decide

/-- Claim C5 counterexample: the line "+1+2" starts with "+" but its
remainder after stripping the leading "+" is not all digits, so the claimed
filter would skip it with a diagnostic; read_recipients_from_file keeps it
(the code removes every "+" before the digit test) and emits no
diagnostic. -/
theorem read_recipients_interior_plus_counterexample :
    startsWithPlus (pyStrip "+1+2".data) = true ∧
    ((pyStrip "+1+2".data).drop 1).all Char.isDigit = false ∧
    read_recipients_from_file ["+1+2".data] = (["+1+2".data], []) := by
  refine ⟨by decide, by decide, by decide⟩

/-- Unfolding lemma for one step of read_recipients_from_file, phrased with
the named filter conditions. -/
theorem read_recipients_cons (a : PyStr) (t : List PyStr) :
    read_recipients_from_file (a :: t) =
      (if lineSilentlySkipped (pyStrip a) then read_recipients_from_file t
       else if !lineValid (pyStrip a) then
         ((read_recipients_from_file t).1, pyStrip a :: (read_recipients_from_file t).2)
       else (pyStrip a :: (read_recipients_from_file t).1, (read_recipients_from_file t).2)) :=
  rfl

/-- Claim C5 (amended): read_recipients_from_file strips each line, silently
drops blank and "#"-comment lines, keeps in order exactly the lines accepted
by the filter "starts with '+' and the line with every '+' removed is a
nonempty digit string", and records one diagnostic for each other line; on
the claimed example lines the output is exactly ["+12345"], with diagnostics
for exactly the two invalid lines. -/
theorem read_recipients_spec (lines : List PyStr) :
    (read_recipients_from_file lines).1 =
      (lines.map pyStrip).filter (fun l => !lineSilentlySkipped l && lineValid l) ∧
    (read_recipients_from_file lines).2 =
      (lines.map pyStrip).filter (fun l => !lineSilentlySkipped l && !lineValid l) ∧
    read_recipients_from_file
        ["# comment".data, "".data, "+12345".data, "notanumber".data, "+1a2b3c".data] =
      (["+12345".data], ["notanumber".data, "+1a2b3c".data]) := by
  have main : ∀ ls : List PyStr,
      (read_recipients_from_file ls).1 =
        (ls.map pyStrip).filter (fun l => !lineSilentlySkipped l && lineValid l) ∧
      (read_recipients_from_file ls).2 =
        (ls.map pyStrip).filter (fun l => !lineSilentlySkipped l && !lineValid l) := by
    intro ls
    induction ls with
    | nil => exact ⟨rfl, rfl⟩
    | cons a t ih =>
      obtain ⟨ih1, ih2⟩ := ih
      rw [read_recipients_cons]
      cases hskip : lineSilentlySkipped (pyStrip a) with
      | true =>
        constructor
        · simpa [List.filter_cons, hskip] using ih1
        · simpa [List.filter_cons, hskip] using ih2
      | false =>
        cases hval : lineValid (pyStrip a) with
        | true =>
          constructor
          · simpa [List.filter_cons, hskip, hval] using ih1
          · simpa [List.filter_cons, hskip, hval] using ih2
        | false =>
          constructor
          · simpa [List.filter_cons, hskip, hval] using ih1
          · simpa [List.filter_cons, hskip, hval] using ih2
  exact ⟨(main lines).1, (main lines).2, by decide⟩

/-- Claim C6: if the send strategy fails on recipient k and succeeds on the
others, both dispatch loops still produce one outcome per recipient: outcome
k is Failed with the captured error, every other outcome is Sent with the
normal pacing, and each recipient is passed to the strategy exactly once, in
order (so the failed recipient is never retried within the call). -/
theorem dispatch_single_failure_isolated (send : PyStr → Except PyStr Unit)
    (recipients : List PyStr) (wait : Int) (k : Nat) (e : PyStr)
    (hk : k < recipients.length)
    (hfail : send recipients[k] = Except.error e)
    (hok : ∀ j, (hj : j < recipients.length) → j ≠ k → send recipients[j] = Except.ok ()) :
    ((send_messages_to_recipients send recipients wait).outcomes.length =
        recipients.length ∧
      (send_messages_to_recipients send recipients wait).outcomes[k]? =
        some (SendOutcome.failed e 5) ∧
      (∀ j, (hj : j < recipients.length) → j ≠ k →
        (send_messages_to_recipients send recipients wait).outcomes[j]? =
          some (SendOutcome.sent (max 20 (wait + 10)))) ∧
      (send_messages_to_recipients send recipients wait).attempts = recipients) ∧
    (∃ rep : DispatchReport,
      send_messages_single_tab send recipients true true = Except.ok rep ∧
      rep.outcomes.length = recipients.length ∧
      rep.outcomes[k]? = some (SendOutcome.failed e 2) ∧
      (∀ j, (hj : j < recipients.length) → j ≠ k →
        rep.outcomes[j]? = some (SendOutcome.sent 3)) ∧
      rep.attempts = recipients) := by
  have hne : recipients.isEmpty = false := by
    cases recipients with
    | nil => exact absurd hk (by simp)
    | cons a t => rfl
  have houtcomes : (send_messages_to_recipients send recipients wait).outcomes =
      recipients.map (fun phone_number =>
        match send phone_number with
        | Except.ok _ => SendOutcome.sent (max 20 (wait + 10))
        | Except.error e2 => SendOutcome.failed e2 5) := by
    simp [send_messages_to_recipients, hne]
  refine ⟨⟨?_, ?_, ?_, ?_⟩, ?_⟩
  · rw [houtcomes, List.length_map]
  · rw [houtcomes, List.getElem?_map, List.getElem?_eq_getElem hk]
    simp [hfail]
  · intro j hj hjk
    rw [houtcomes, List.getElem?_map, List.getElem?_eq_getElem hj]
    simp [hok j hj hjk]
  · simp [send_messages_to_recipients, hne]
  · refine ⟨⟨recipients.map (fun phone_number =>
        match send phone_number with
        | Except.ok _ => SendOutcome.sent 3
        | Except.error e2 => SendOutcome.failed e2 2), recipients, false⟩, ?_, ?_, ?_, ?_, rfl⟩
    · simp [send_messages_single_tab, hne]
    · exact List.length_map _ _
    · rw [List.getElem?_map, List.getElem?_eq_getElem hk]
      simp [hfail]
    · intro j hj hjk
      rw [List.getElem?_map, List.getElem?_eq_getElem hj]
      simp [hok j hj hjk]

/-- Witness for dispatch_single_failure_isolated: two recipients, with the
strategy failing exactly on the first. -/
theorem dispatch_single_failure_isolated_witness :
    (send_messages_to_recipients
        (fun p => if p = "+12".data then Except.error "boom".data else Except.ok ())
        ["+12".data, "+34".data] 40).outcomes[0]? =
      some (SendOutcome.failed "boom".data 5) ∧
    (send_messages_to_recipients
        (fun p => if p = "+12".data then Except.error "boom".data else Except.ok ())
        ["+12".data, "+34".data] 40).outcomes[1]? =
      some (SendOutcome.sent (max 20 (40 + 10))) ∧
    (send_messages_to_recipients
        (fun p => if p = "+12".data then Except.error "boom".data else Except.ok ())
        ["+12".data, "+34".data] 40).attempts = ["+12".data, "+34".data] := by
  have h := dispatch_single_failure_isolated
    (fun p => if p = "+12".data then Except.error "boom".data else Except.ok ())
    ["+12".data, "+34".data] 40 0 "boom".data (by decide) (by rfl)
    (by
      intro j hj hjk
      have hj2 : j < 2 := hj
      interval_cases j
      · exact absurd rfl hjk
      · rfl)
  exact ⟨h.1.2.1, h.1.2.2.1 1 (by decide) (by decide), h.1.2.2.2⟩

/-- Claim C7: dispatching an empty recipient list produces zero outcomes,
passes nothing to the send strategy, and reports the no-op condition rather
than raising, for both the pywhatkit dispatcher and (when Selenium is
available) the single-tab dispatcher. -/
theorem dispatch_empty_noop (send : PyStr → Except PyStr Unit) (wait : Int) (wdm : Bool) :
    send_messages_to_recipients send [] wait = ⟨[], [], true⟩ ∧
    send_messages_single_tab send [] true wdm = Except.ok ⟨[], [], true⟩ :=
  ⟨rfl, rfl⟩

/-- Claim C8: in send_messages_to_recipients, every Sent outcome records a
pause of max(20, per_send_wait_seconds + 10) seconds and every Failed outcome
records a fixed 5-second recovery pause before the next recipient. -/
theorem dispatch_pacing (send : PyStr → Except PyStr Unit) (recipients : List PyStr)
    (wait : Int) (i : Nat) :
    (∀ s, (send_messages_to_recipients send recipients wait).outcomes[i]? =
        some (SendOutcome.sent s) → s = max 20 (wait + 10)) ∧
    (∀ e r, (send_messages_to_recipients send recipients wait).outcomes[i]? =
        some (SendOutcome.failed e r) → r = 5) := by
  cases hne : recipients.isEmpty with
  | true =>
    have h0 : (send_messages_to_recipients send recipients wait).outcomes = [] := by
      simp [send_messages_to_recipients, hne]
    constructor
    · intro s hs
      rw [h0] at hs
      simp at hs
    · intro e r hs
      rw [h0] at hs
      simp at hs
  | false =>
    have h0 : (send_messages_to_recipients send recipients wait).outcomes =
        recipients.map (fun phone_number =>
          match send phone_number with
          | Except.ok _ => SendOutcome.sent (max 20 (wait + 10))
          | Except.error e2 => SendOutcome.failed e2 5) := by
      simp [send_messages_to_recipients, hne]
    constructor
    · intro s hs
      rw [h0, List.getElem?_map] at hs
      cases hp : recipients[i]? with
      | none =>
        rw [hp] at hs
        simp at hs
      | some p =>
        rw [hp] at hs
        cases hsend : send p with
        | ok u =>
          simp [hsend] at hs
          exact hs.symm
        | error e2 =>
          simp [hsend] at hs
    · intro e r hs
      rw [h0, List.getElem?_map] at hs
      cases hp : recipients[i]? with
      | none =>
        rw [hp] at hs
        simp at hs
      | some p =>
        rw [hp] at hs
        cases hsend : send p with
        | ok u =>
          simp [hsend] at hs
        | error e2 =>
          simp [hsend] at hs
          exact hs.2.symm

/-- Witness for dispatch_pacing: with per_send_wait_seconds 40, a successful
send records a 50-second pause (max of 20 and 40 + 10) and a failed send the
fixed 5-second pause. -/
theorem dispatch_pacing_witness :
    ((50 : Int) = max 20 (40 + 10)) ∧ ((5 : Int) = 5) := by
  have h1 := dispatch_pacing (fun _ => Except.ok ()) ["+12".data] 40 0
  have h2 := dispatch_pacing (fun p => Except.error p) ["+12".data] 40 0
  exact ⟨h1.1 50 (by decide), h2.2 "+12".data 5 (by decide)⟩

/-- Claim C9 counterexample: with an empty inline message and a message file
both supplied, the claim demands a usage error, yet read_message returns the
file content (Python truthiness makes the empty inline message count as
absent); conversely, an empty inline message alone is a supplied inline
message, yet read_message still raises the usage error. -/
theorem read_message_truthiness_counterexample :
    read_message (some "".data) (MsgFileArg.given "hi".data) = Except.ok "hi".data ∧
    isUsageError (read_message (some "".data) (MsgFileArg.given "hi".data)) = false ∧
    isUsageError (read_message (some "".data) MsgFileArg.absent) = true :=
  ⟨rfl, rfl, rfl⟩

/-- Claim C9 (amended): read_message raises the usage error iff a nonempty
inline message and a message file are both supplied, or neither a message
file nor a nonempty inline message is supplied (an empty inline message is
falsy in Python and counts as absent).  Otherwise, with a message file and no
nonempty inline message it returns the file content trimmed exactly once
(trimming is idempotent), and with a nonempty inline message alone it
returns the message verbatim. -/
theorem read_message_spec (message : Option PyStr) (message_file : MsgFileArg) :
    (isUsageError (read_message message message_file) = true ↔
      (pyTruthy message = true ∧ fileSupplied message_file = true) ∨
      (pyTruthy message = false ∧ fileSupplied message_file = false)) ∧
    (∀ content, message_file = MsgFileArg.given content → pyTruthy message = false →
      read_message message message_file = Except.ok (pyStrip content) ∧
      pyStrip (pyStrip content) = pyStrip content) ∧
    (∀ m, message = some m → pyTruthy message = true → message_file = MsgFileArg.absent →
      read_message message message_file = Except.ok m) := by
  refine ⟨?_, ?_, ?_⟩
  · match message, message_file with
    | none, MsgFileArg.absent => simp [read_message, pyTruthy, fileSupplied, isUsageError]
    | none, MsgFileArg.missing => simp [read_message, pyTruthy, fileSupplied, isUsageError]
    | none, MsgFileArg.given c => simp [read_message, pyTruthy, fileSupplied, isUsageError]
    | some m, mf =>
      cases hm : m.isEmpty with
      | true =>
        cases mf <;> simp [read_message, pyTruthy, fileSupplied, isUsageError, hm]
      | false =>
        cases mf <;> simp [read_message, pyTruthy, fileSupplied, isUsageError, hm]
  · intro content hcf htr
    subst hcf
    refine ⟨?_, pyStrip_pyStrip content⟩
    simp [read_message, htr, fileSupplied]
  · intro m hm htr hf
    subst hm
    subst hf
    have hne : m.isEmpty = false := by simpa [pyTruthy] using htr
    simp [read_message, pyTruthy, fileSupplied, hne]

/-- Witness for read_message_spec: a nonempty inline message alone is
returned verbatim, and a message file alone is returned trimmed once. -/
theorem read_message_spec_witness :
    read_message (some "hello".data) MsgFileArg.absent = Except.ok "hello".data ∧
    read_message none (MsgFileArg.given "  x ".data) = Except.ok (pyStrip "  x ".data) ∧
    pyStrip "  x ".data = "x".data := by
  have h1 := read_message_spec (some "hello".data) MsgFileArg.absent
  have h2 := read_message_spec none (MsgFileArg.given "  x ".data)
  exact ⟨h1.2.2 "hello".data rfl (by decide) rfl,
    (h2.2.1 "  x ".data rfl (by decide)).1, by decide⟩

/-- Claim C10: the legacy Turkish normalizer normalize_tr_number is
extensionally equal to the general normalizer specialised to Turkey. -/
theorem normalize_tr_refines_general (raw : PyStr) :
    normalize_tr_number raw = normalize_number raw "Turkey" := rfl

end WPBot
